import Mathlib

/-!
Verification development for the `Device` session/token core of a
Bitwarden-compatible vault server (`src/db/models/device.rs`).

The Rust code is embedded shallowly:
* `chrono::NaiveDateTime` timestamps are modelled as `Int` seconds since the
  epoch (`.timestamp()` is the identity); `Utc::now()` becomes an explicit
  `now : Int` parameter of each operation that reads the clock.
* `crypto::get_random_64()` / `crypto::get_random(vec![0u8; 180])` become an
  explicit `rand : List Byte` parameter (the byte sequence the secure random
  source returns); their documented lengths appear as hypotheses.
* The diesel-backed store becomes an explicit `db : List Device` plus an
  error-injection parameter `fail : Option String` standing for an underlying
  store error; `diesel::...::execute` results become an `Except String Nat`
  parameter (rows affected, or an error).
* Rust `Result<_,_>::ok()` is `Except.toOption`; `Result::expect` is modelled
  by the `Outcome` type whose `panicked` constructor records a fatal abort.
-/

/-- A byte, as produced by the secure random source. -/
def Byte := Fin 256

instance : DecidableEq Byte := instDecidableEqFin 256

instance : OfNat Byte n := ⟨Fin.ofNat n⟩

/-- The `Device` struct of `device.rs` (timestamps as `Int` seconds). -/
structure Device where
  uuid : String
  created_at : Int
  updated_at : Int
  user_uuid : String
  name : String
  type_ : Int
  push_token : Option String
  refresh_token : String
  twofactor_remember : Option String
deriving DecidableEq, Repr

/-- The fields of the related `User` entity read by `Device.refresh_tokens`
(`user.uuid`, `user.name`, `user.email`, `user.security_stamp`). -/
structure User where
  uuid : String
  name : String
  email : String
  security_stamp : String
deriving DecidableEq, Repr

/-- The fields of the `UserOrganization` membership record read by
`Device.refresh_tokens` (`o.org_uuid`, `o.type_`); per the role enumeration
referenced by the code, `type_` 0 = Owner, 1 = Admin, 2 = User. -/
structure UserOrganization where
  org_uuid : String
  type_ : Int
deriving DecidableEq, Repr

/-- The `JWTClaims` struct populated by `Device.refresh_tokens` (field list as
in the code and §6 of the spec). -/
structure JWTClaims where
  nbf : Int
  exp : Int
  iss : String
  sub : String
  premium : Bool
  name : String
  email : String
  email_verified : Bool
  orgowner : List String
  orgadmin : List String
  orguser : List String
  sstamp : String
  device : String
  scope : List String
  amr : List String
deriving DecidableEq, Repr

/-- Modelled from the spec: the standard base64 alphabet used by
`data_encoding::BASE64` (RFC 4648 §4). -/
def base64StdAlphabet : List Char :=
  "ABCDEFGHIJKLMNOPQRSTUVWXYZabcdefghijklmnopqrstuvwxyz0123456789+/".toList

/-- Modelled from the spec: the URL-safe base64 alphabet used by
`data_encoding::BASE64URL` (RFC 4648 §5). -/
def base64UrlAlphabet : List Char :=
  "ABCDEFGHIJKLMNOPQRSTUVWXYZabcdefghijklmnopqrstuvwxyz0123456789-_".toList

/-- Character an alphabet assigns to a six-bit value. -/
def b64char (alpha : List Char) (s : Nat) : Char := alpha.getD s '?'

/-- Modelled from the spec: RFC 4648 base64 encoding of a byte sequence over a
given 64-character alphabet, with `=` padding. -/
def base64Chars (alpha : List Char) : List Byte → List Char
  | [] => []
  | [b0] =>
      [b64char alpha (b0.val / 4), b64char alpha (b0.val % 4 * 16), '=', '=']
  | [b0, b1] =>
      [b64char alpha (b0.val / 4), b64char alpha (b0.val % 4 * 16 + b1.val / 16),
       b64char alpha (b1.val % 16 * 4), '=']
  | b0 :: b1 :: b2 :: rest =>
      b64char alpha (b0.val / 4) :: b64char alpha (b0.val % 4 * 16 + b1.val / 16) ::
      b64char alpha (b1.val % 16 * 4 + b2.val / 64) :: b64char alpha (b2.val % 64) ::
      base64Chars alpha rest

/-- Modelled from the spec: `data_encoding::BASE64.encode`. -/
def BASE64.encode (bs : List Byte) : String := ⟨base64Chars base64StdAlphabet bs⟩

/-- Modelled from the spec: `data_encoding::BASE64URL.encode`. -/
def BASE64URL.encode (bs : List Byte) : String := ⟨base64Chars base64UrlAlphabet bs⟩

/-- Modelled from the spec: `auth::DEFAULT_VALIDITY`, the fixed process-wide
access-token validity, a whole number of seconds (two hours). -/
def DEFAULT_VALIDITY : Int := 2 * 60 * 60

/-- Modelled from the spec: `auth::JWT_ISSUER`, a fixed process-wide string. -/
def JWT_ISSUER : String := "bitwarden_rs"

/-- Modelled from the spec: `auth::encode_jwt`, the external TokenIssuer's
claim-set-to-signed-string encoding; opaque to this core, any concrete
rendering serves the embedding. -/
def encode_jwt (claims : JWTClaims) : String := toString (repr claims)

/-- `Device::new`: both timestamps set to the current instant, empty
refresh token, no push token, no remember token. -/
def Device.new (uuid user_uuid name : String) (type_ : Int) (now : Int) : Device :=
  { uuid := uuid
    created_at := now
    updated_at := now
    user_uuid := user_uuid
    name := name
    type_ := type_
    push_token := none
    refresh_token := ""
    twofactor_remember := none }

/-- `Device::refresh_twofactor_remember`: base64-encode 180 random bytes
(`rand`), store and return the encoding. Returns the mutated device and the
returned token. -/
def Device.refresh_twofactor_remember (self : Device) (rand : List Byte) :
    Device × String :=
  let twofactor_remember := BASE64.encode rand
  ({ self with twofactor_remember := some twofactor_remember }, twofactor_remember)

/-- `Device::delete_twofactor_remember`. -/
def Device.delete_twofactor_remember (self : Device) : Device :=
  { self with twofactor_remember := none }

/-- `Device::refresh_tokens`, stopping just before `encode_jwt`: returns the
mutated device, the `JWTClaims` value handed to `encode_jwt`, and the returned
validity in seconds.  `time_now` is `Utc::now().naive_utc()`, `rand` the bytes
`crypto::get_random_64()` returns. -/
def Device.refresh_tokens_full (self : Device) (user : User)
    (orgs : List UserOrganization) (time_now : Int) (rand : List Byte) :
    Device × JWTClaims × Int :=
  let self :=
    if self.refresh_token.isEmpty then
      { self with refresh_token := BASE64URL.encode rand }
    else self
  let self := { self with updated_at := time_now }
  let orgowner := (orgs.filter (fun o => o.type_ == 0)).map (fun o => o.org_uuid)
  let orgadmin := (orgs.filter (fun o => o.type_ == 1)).map (fun o => o.org_uuid)
  let orguser := (orgs.filter (fun o => o.type_ == 2)).map (fun o => o.org_uuid)
  let claims : JWTClaims :=
    { nbf := time_now
      exp := time_now + DEFAULT_VALIDITY
      iss := JWT_ISSUER
      sub := user.uuid
      premium := true
      name := user.name
      email := user.email
      email_verified := true
      orgowner := orgowner
      orgadmin := orgadmin
      orguser := orguser
      sstamp := user.security_stamp
      device := self.uuid
      scope := ["api", "offline_access"]
      amr := ["Application"] }
  (self, claims, DEFAULT_VALIDITY)

/-- `Device::refresh_tokens` as the code returns it: `(token_string,
validity_seconds)` alongside the mutated device. -/
def Device.refresh_tokens (self : Device) (user : User)
    (orgs : List UserOrganization) (time_now : Int) (rand : List Byte) :
    Device × String × Int :=
  let r := self.refresh_tokens_full user orgs time_now rand
  (r.1, encode_jwt r.2.1, r.2.2)

/-- Result of a Rust expression that either yields a value or panics
(`Result::expect`). -/
inductive Outcome (α : Type) where
  | ok : α → Outcome α
  | panicked : String → Outcome α
deriving DecidableEq, Repr

/-- `diesel .filter(...).first::<Device>(..)`: an underlying store error if one
is injected, otherwise the first matching row or a not-found error. -/
def storeFirst (p : Device → Bool) (db : List Device) (fail : Option String) :
    Except String Device :=
  match fail with
  | some e => .error e
  | none =>
      match (db.filter p).head? with
      | some d => .ok d
      | none => .error "NotFound"

/-- `diesel .filter(...).load::<Device>(..)`: an underlying store error if one
is injected, otherwise all matching rows. -/
def storeLoad (p : Device → Bool) (db : List Device) (fail : Option String) :
    Except String (List Device) :=
  match fail with
  | some e => .error e
  | none => .ok (db.filter p)

/-- `Device::save`: stamps `updated_at` to now, then runs the upsert; `exec` is
the `diesel::replace_into(..).execute(..)` result. Returns the mutated
in-memory device and the boolean outcome (`Ok(1) => true`, anything else
`false`). -/
def Device.save (self : Device) (now : Int) (exec : Except String Nat) :
    Device × Bool :=
  let self := { self with updated_at := now }
  (self, match exec with
         | .ok 1 => true
         | _ => false)

/-- `Device::delete`: `exec` is the `diesel::delete(..).execute(..)` result;
`Ok(1) => true`, anything else `false`. -/
def Device.delete (_self : Device) (exec : Except String Nat) : Bool :=
  match exec with
  | .ok 1 => true
  | _ => false

/-- `Device::find_by_uuid`: `.first(..).ok()`. -/
def Device.find_by_uuid (uuid : String) (db : List Device)
    (fail : Option String) : Option Device :=
  (storeFirst (fun d => d.uuid == uuid) db fail).toOption

/-- `Device::find_by_refresh_token`: `.first(..).ok()`. -/
def Device.find_by_refresh_token (refresh_token : String) (db : List Device)
    (fail : Option String) : Option Device :=
  (storeFirst (fun d => d.refresh_token == refresh_token) db fail).toOption

/-- `Device::find_by_user`: `.load(..).expect("Error loading devices")` —
panics on a store error. -/
def Device.find_by_user (user_uuid : String) (db : List Device)
    (fail : Option String) : Outcome (List Device) :=
  match storeLoad (fun d => d.user_uuid == user_uuid) db fail with
  | .ok v => Outcome.ok v
  | .error _ => Outcome.panicked "Error loading devices"

/-- Modelled from the spec: §4.3 step 2, partitioning the memberships into the
three ordered organization-id sequences by role (Owner, Admin, User),
dispatching each membership to at most one list. -/
def specRolePartition : List UserOrganization →
    List String × List String × List String
  | [] => ([], [], [])
  | o :: rest =>
      let r := specRolePartition rest
      if o.type_ = 0 then (o.org_uuid :: r.1, r.2.1, r.2.2)
      else if o.type_ = 1 then (r.1, o.org_uuid :: r.2.1, r.2.2)
      else if o.type_ = 2 then (r.1, r.2.1, o.org_uuid :: r.2.2)
      else r

/-- Evolution of an in-memory `Device` under the mutating operations of
`device.rs`, indexed by the current time: `DeviceEvolution t d` holds when `d`
can be the in-memory state at time `t` of a device constructed by
`Device::new` and mutated only by these operations, the clock never going
backwards. -/
inductive DeviceEvolution : Int → Device → Prop where
  | created (uuid user_uuid name : String) (type_ : Int) (t : Int) :
      DeviceEvolution t (Device.new uuid user_uuid name type_ t)
  | refreshed {t : Int} {d : Device} (u : User) (orgs : List UserOrganization)
      (rand : List Byte) {t' : Int} :
      DeviceEvolution t d → t ≤ t' →
      DeviceEvolution t' (d.refresh_tokens_full u orgs t' rand).1
  | saved {t : Int} {d : Device} (exec : Except String Nat) {t' : Int} :
      DeviceEvolution t d → t ≤ t' →
      DeviceEvolution t' (d.save t' exec).1
  | remembered {t : Int} {d : Device} (rand : List Byte) :
      DeviceEvolution t d →
      DeviceEvolution t (d.refresh_twofactor_remember rand).1
  | forgot {t : Int} {d : Device} :
      DeviceEvolution t d →
      DeviceEvolution t d.delete_twofactor_remember

/-! ### Base64 helper lemmas -/

theorem base64Chars_ne_nil (alpha : List Char) (l : List Byte) (h : l ≠ []) :
    base64Chars alpha l ≠ [] := by
  match l with
  | [] => exact absurd rfl h
  | [b0] => simp [base64Chars]
  | [b0, b1] => simp [base64Chars]
  | b0 :: b1 :: b2 :: rest => simp [base64Chars]

theorem BASE64URL.encode_ne_empty (l : List Byte) (h : l ≠ []) :
    BASE64URL.encode l ≠ "" := by
  intro hc
  exact base64Chars_ne_nil base64UrlAlphabet l h (congrArg String.data hc)

set_option maxHeartbeats 1000000 in
/-- The standard alphabet assigns distinct characters to distinct six-bit
values. -/
theorem stdCharInj : ∀ a < 64, ∀ b < 64,
    b64char base64StdAlphabet a = b64char base64StdAlphabet b → a = b := by
  decide

/-- Standard base64 is injective on byte sequences of equal length. -/
theorem base64Chars_std_inj (l1 l2 : List Byte) (hlen : l1.length = l2.length)
    (heq : base64Chars base64StdAlphabet l1 = base64Chars base64StdAlphabet l2) :
    l1 = l2 := by
  match l1, l2 with
  | [], [] => rfl
  | [], _ :: _ => simp at hlen
  | _ :: _, [] => simp at hlen
  | [b0], [b0'] =>
      simp only [base64Chars, List.cons.injEq, and_true] at heq
      obtain ⟨e0, e1⟩ := heq
      have h0 := b0.isLt
      have h0' := b0'.isLt
      have v0 := stdCharInj _ (by omega) _ (by omega) e0
      have v1 := stdCharInj _ (by omega) _ (by omega) e1
      have : b0 = b0' := Fin.ext (by omega)
      simp [this]
  | [b0], _ :: _ :: _ => simp at hlen
  | _ :: _ :: _, [b0'] => simp at hlen
  | [b0, b1], [b0', b1'] =>
      simp only [base64Chars, List.cons.injEq, and_true] at heq
      obtain ⟨e0, e1, e2⟩ := heq
      have h0 := b0.isLt; have h1 := b1.isLt
      have h0' := b0'.isLt; have h1' := b1'.isLt
      have v0 := stdCharInj _ (by omega) _ (by omega) e0
      have v1 := stdCharInj _ (by omega) _ (by omega) e1
      have v2 := stdCharInj _ (by omega) _ (by omega) e2
      have hb0 : b0 = b0' := Fin.ext (by omega)
      have hb1 : b1 = b1' := Fin.ext (by omega)
      simp [hb0, hb1]
  | [b0, b1], _ :: _ :: _ :: _ => simp at hlen
  | _ :: _ :: _ :: _, [b0', b1'] => simp at hlen
  | b0 :: b1 :: b2 :: r, b0' :: b1' :: b2' :: r' =>
      simp only [base64Chars, List.cons.injEq] at heq
      obtain ⟨e0, e1, e2, e3, erest⟩ := heq
      have h0 := b0.isLt; have h1 := b1.isLt; have h2 := b2.isLt
      have h0' := b0'.isLt; have h1' := b1'.isLt; have h2' := b2'.isLt
      have v0 := stdCharInj _ (by omega) _ (by omega) e0
      have v1 := stdCharInj _ (by omega) _ (by omega) e1
      have v2 := stdCharInj _ (by omega) _ (by omega) e2
      have v3 := stdCharInj _ (by omega) _ (by omega) e3
      have hb0 : b0 = b0' := Fin.ext (by omega)
      have hb1 : b1 = b1' := Fin.ext (by omega)
      have hb2 : b2 = b2' := Fin.ext (by omega)
      have hr : r = r' :=
        base64Chars_std_inj r r' (by simpa using hlen) erest
      simp [hb0, hb1, hb2, hr]
termination_by l1.length

/-- `BASE64.encode` is injective on byte sequences of equal length. -/
theorem BASE64.encode_inj (l1 l2 : List Byte) (hlen : l1.length = l2.length)
    (h : BASE64.encode l1 = BASE64.encode l2) : l1 = l2 :=
  base64Chars_std_inj l1 l2 hlen (congrArg String.data h)

/-! ### Claim theorems -/

/-- Claim C2: the claim set built by `refresh_tokens` has subject equal to the
user's id, name and email copied from the user's profile, `email_verified` and
`premium` fixed true, `sstamp` the user's security stamp, `device` this
device's id, and the fixed `scope` and `amr` lists. -/
theorem refresh_tokens_claim_profile_fields (d : Device) (u : User)
    (orgs : List UserOrganization) (t : Int) (rand : List Byte) :
    (d.refresh_tokens_full u orgs t rand).2.1.sub = u.uuid ∧
    (d.refresh_tokens_full u orgs t rand).2.1.name = u.name ∧
    (d.refresh_tokens_full u orgs t rand).2.1.email = u.email ∧
    (d.refresh_tokens_full u orgs t rand).2.1.email_verified = true ∧
    (d.refresh_tokens_full u orgs t rand).2.1.premium = true ∧
    (d.refresh_tokens_full u orgs t rand).2.1.sstamp = u.security_stamp ∧
    (d.refresh_tokens_full u orgs t rand).2.1.device = d.uuid ∧
    (d.refresh_tokens_full u orgs t rand).2.1.scope = ["api", "offline_access"] ∧
    (d.refresh_tokens_full u orgs t rand).2.1.amr = ["Application"] := by
  unfold Device.refresh_tokens_full
  by_cases h : d.refresh_token.isEmpty <;> simp [h]

/-- Claim C7: the validity-seconds integer returned by `refresh_tokens` equals
`exp - nbf` as encoded in the claims. -/
theorem refresh_tokens_validity_eq_exp_sub_nbf (d : Device) (u : User)
    (orgs : List UserOrganization) (t : Int) (rand : List Byte) :
    (d.refresh_tokens_full u orgs t rand).2.2 =
      (d.refresh_tokens_full u orgs t rand).2.1.exp -
        (d.refresh_tokens_full u orgs t rand).2.1.nbf := by
  unfold Device.refresh_tokens_full
  by_cases h : d.refresh_token.isEmpty <;> simp [h]

/-- Claim C8: `refresh_tokens` mutates at most `refresh_token` (and only when
it was empty) and `updated_at` (always set to the current instant); all other
fields are unchanged. -/
theorem refresh_tokens_frame (d : Device) (u : User)
    (orgs : List UserOrganization) (t : Int) (rand : List Byte) :
    (d.refresh_tokens_full u orgs t rand).1.uuid = d.uuid ∧
    (d.refresh_tokens_full u orgs t rand).1.created_at = d.created_at ∧
    (d.refresh_tokens_full u orgs t rand).1.user_uuid = d.user_uuid ∧
    (d.refresh_tokens_full u orgs t rand).1.name = d.name ∧
    (d.refresh_tokens_full u orgs t rand).1.type_ = d.type_ ∧
    (d.refresh_tokens_full u orgs t rand).1.push_token = d.push_token ∧
    (d.refresh_tokens_full u orgs t rand).1.twofactor_remember
      = d.twofactor_remember ∧
    (d.refresh_tokens_full u orgs t rand).1.updated_at = t ∧
    (d.refresh_tokens_full u orgs t rand).1.refresh_token
      = (if d.refresh_token.isEmpty then BASE64URL.encode rand
         else d.refresh_token) := by
  unfold Device.refresh_tokens_full
  by_cases h : d.refresh_token.isEmpty <;> simp [h]

/-! ### Helper lemmas about `refresh_tokens` -/

theorem refresh_tokens_full_device_eq (d : Device) (u : User)
    (orgs : List UserOrganization) (t : Int) (rand : List Byte) :
    (d.refresh_tokens_full u orgs t rand).1 =
      { d with
          updated_at := t
          refresh_token :=
            if d.refresh_token = "" then BASE64URL.encode rand
            else d.refresh_token } := by
  by_cases h : d.refresh_token = ""
  · have hb : d.refresh_token.isEmpty = true := by
      simp [String.isEmpty_iff, h]
    simp [Device.refresh_tokens_full, hb, if_pos h]
  · have hb : d.refresh_token.isEmpty = false := by
      cases hc : d.refresh_token.isEmpty
      · rfl
      · exact absurd ((String.isEmpty_iff _).mp hc) h
    simp [Device.refresh_tokens_full, hb, if_neg h]

theorem refresh_tokens_full_org_lists (d : Device) (u : User)
    (orgs : List UserOrganization) (t : Int) (rand : List Byte) :
    (d.refresh_tokens_full u orgs t rand).2.1.orgowner
        = (orgs.filter (fun o => o.type_ == 0)).map (fun o => o.org_uuid) ∧
    (d.refresh_tokens_full u orgs t rand).2.1.orgadmin
        = (orgs.filter (fun o => o.type_ == 1)).map (fun o => o.org_uuid) ∧
    (d.refresh_tokens_full u orgs t rand).2.1.orguser
        = (orgs.filter (fun o => o.type_ == 2)).map (fun o => o.org_uuid) := by
  unfold Device.refresh_tokens_full
  by_cases h : d.refresh_token.isEmpty <;> simp [h]

/-- The spec's role partition coincides with the code's three filters. -/
theorem specRolePartition_eq (orgs : List UserOrganization) :
    specRolePartition orgs =
      ((orgs.filter (fun o => o.type_ == 0)).map (fun o => o.org_uuid),
       (orgs.filter (fun o => o.type_ == 1)).map (fun o => o.org_uuid),
       (orgs.filter (fun o => o.type_ == 2)).map (fun o => o.org_uuid)) := by
  induction orgs with
  | nil => rfl
  | cons o rest ih =>
      by_cases h0 : o.type_ = 0
      · simp [specRolePartition, ih, List.filter_cons, h0]
      · by_cases h1 : o.type_ = 1
        · simp [specRolePartition, ih, List.filter_cons, h0, h1]
        · by_cases h2 : o.type_ = 2
          · simp [specRolePartition, ih, List.filter_cons, h0, h1, h2]
          · simp [specRolePartition, ih, List.filter_cons, h0, h1, h2]

/-- With pairwise-distinct organization ids, a membership's id lies in the
role-`c` id list exactly when its own role is `c`. -/
theorem mem_role_list_iff (orgs : List UserOrganization) (c : Int)
    (hnodup : (orgs.map (fun o => o.org_uuid)).Nodup) (o : UserOrganization)
    (ho : o ∈ orgs) :
    o.org_uuid ∈ (orgs.filter (fun o' => o'.type_ == c)).map
        (fun o' => o'.org_uuid) ↔ o.type_ = c := by
  constructor
  · intro hmem
    obtain ⟨o', ho', heq⟩ := List.mem_map.mp hmem
    obtain ⟨ho'orgs, hc⟩ := List.mem_filter.mp ho'
    have hoo : o' = o := List.inj_on_of_nodup_map hnodup ho'orgs ho heq
    subst hoo
    simpa using hc
  · intro hc
    exact List.mem_map.mpr ⟨o, List.mem_filter.mpr ⟨ho, by simp [hc]⟩, rfl⟩

/-- Claim C1: for a device with empty refresh token, `refresh_tokens` sets it
to the URL-safe base64 encoding of the 64 random bytes and returns with it
non-empty; for a non-empty one it is left exactly unchanged, so an immediate
second call yields the identical token. -/
theorem refresh_tokens_ensure_refresh_token (d : Device) (u u' : User)
    (orgs orgs' : List UserOrganization) (t t' : Int) (rand rand' : List Byte)
    (hlen : rand.length = 64) :
    (d.refresh_token = "" →
      (d.refresh_tokens_full u orgs t rand).1.refresh_token
        = BASE64URL.encode rand) ∧
    (d.refresh_token ≠ "" →
      (d.refresh_tokens_full u orgs t rand).1.refresh_token
        = d.refresh_token) ∧
    (d.refresh_tokens_full u orgs t rand).1.refresh_token ≠ "" ∧
    ((d.refresh_tokens_full u orgs t rand).1.refresh_tokens_full u' orgs' t'
        rand').1.refresh_token
      = (d.refresh_tokens_full u orgs t rand).1.refresh_token := by
  have hne : rand ≠ [] := by
    intro hc
    rw [hc] at hlen
    simp at hlen
  have h1 := refresh_tokens_full_device_eq d u orgs t rand
  have hnonempty :
      (d.refresh_tokens_full u orgs t rand).1.refresh_token ≠ "" := by
    rw [h1]
    by_cases h : d.refresh_token = ""
    · simpa [h] using BASE64URL.encode_ne_empty rand hne
    · simp [h]
  refine ⟨?_, ?_, hnonempty, ?_⟩
  · intro h
    rw [h1]
    simp [h]
  · intro h
    rw [h1]
    simp [h]
  · rw [refresh_tokens_full_device_eq]
    simp [hnonempty]

/-- Concrete instance of claim C1. -/
theorem refresh_tokens_ensure_refresh_token_witness :
    (List.replicate 64 (0 : Byte)).length = 64 ∧
    ((Device.new "d1" "u1" "n" 0 0).refresh_tokens_full ⟨"u1", "n", "e", "s1"⟩
        [] 0 (List.replicate 64 (0 : Byte))).1.refresh_token ≠ "" :=
  ⟨by simp,
   (refresh_tokens_ensure_refresh_token (Device.new "d1" "u1" "n" 0 0)
      ⟨"u1", "n", "e", "s1"⟩ ⟨"u1", "n", "e", "s1"⟩ [] [] 0 1
      (List.replicate 64 (0 : Byte)) [] (by simp)).2.2.1⟩

/-- Claim C3 counterexample: with an input whose two memberships share the
organization id "o1" (once as Owner, once as Admin), `refresh_tokens` puts
"o1" into both `orgowner` and `orgadmin`, so it is false that every
organization id of the input appears in exactly one of the three lists or in
none. -/
theorem refresh_tokens_duplicate_org_id_in_two_lists :
    ((Device.new "d1" "u1" "n" 0 0).refresh_tokens_full ⟨"u1", "n", "e", "s1"⟩
        [⟨"o1", 0⟩, ⟨"o1", 1⟩] 0 []).2.1.orgowner = ["o1"] ∧
    ((Device.new "d1" "u1" "n" 0 0).refresh_tokens_full ⟨"u1", "n", "e", "s1"⟩
        [⟨"o1", 0⟩, ⟨"o1", 1⟩] 0 []).2.1.orgadmin = ["o1"] := by
  decide

/-- Claim C3 (amended): the three claim lists are exactly the spec's ordered
role partition of the input (Owner, Admin, User in insertion order, any other
role in no list); and when the memberships' organization ids are pairwise
distinct, each membership's id lies in a given list iff its role is the
corresponding one — so each organization id appears in exactly one of the
three lists, or in none when its role is not Owner/Admin/User. -/
theorem refresh_tokens_org_partition (d : Device) (u : User)
    (orgs : List UserOrganization) (t : Int) (rand : List Byte) :
    ((d.refresh_tokens_full u orgs t rand).2.1.orgowner,
      (d.refresh_tokens_full u orgs t rand).2.1.orgadmin,
      (d.refresh_tokens_full u orgs t rand).2.1.orguser)
      = specRolePartition orgs ∧
    ((orgs.map (fun o => o.org_uuid)).Nodup → ∀ o ∈ orgs,
      (o.org_uuid ∈ (d.refresh_tokens_full u orgs t rand).2.1.orgowner
          ↔ o.type_ = 0) ∧
      (o.org_uuid ∈ (d.refresh_tokens_full u orgs t rand).2.1.orgadmin
          ↔ o.type_ = 1) ∧
      (o.org_uuid ∈ (d.refresh_tokens_full u orgs t rand).2.1.orguser
          ↔ o.type_ = 2)) := by
  obtain ⟨e0, e1, e2⟩ := refresh_tokens_full_org_lists d u orgs t rand
  constructor
  · rw [e0, e1, e2, specRolePartition_eq]
  · intro hnodup o ho
    rw [e0, e1, e2]
    exact ⟨mem_role_list_iff orgs 0 hnodup o ho,
           mem_role_list_iff orgs 1 hnodup o ho,
           mem_role_list_iff orgs 2 hnodup o ho⟩

/-- Concrete instance of claim C3 (amended): with distinct ids, the Owner
membership's id lands in `orgowner` and not in `orgadmin`. -/
theorem refresh_tokens_org_partition_witness :
    "o1" ∈ ((Device.new "d1" "u1" "n" 0 0).refresh_tokens_full
        ⟨"u1", "n", "e", "s1"⟩ [⟨"o1", 0⟩, ⟨"o2", 2⟩] 0 []).2.1.orgowner ∧
    "o1" ∉ ((Device.new "d1" "u1" "n" 0 0).refresh_tokens_full
        ⟨"u1", "n", "e", "s1"⟩ [⟨"o1", 0⟩, ⟨"o2", 2⟩] 0 []).2.1.orgadmin := by
  have h := (refresh_tokens_org_partition (Device.new "d1" "u1" "n" 0 0)
      ⟨"u1", "n", "e", "s1"⟩ [⟨"o1", 0⟩, ⟨"o2", 2⟩] 0 []).2 (by decide)
      ⟨"o1", 0⟩ (by decide)
  exact ⟨h.1.mpr rfl, fun hc => absurd (h.2.1.mp hc) (by decide)⟩

/-- Claim C4 counterexample: `find_by_user` on an underlying store error does
not report a typed outcome to its caller — it raises a fatal condition
(`expect` panics with "Error loading devices"). -/
theorem find_by_user_fatal_on_store_error :
    Device.find_by_user "u1" [] (some "io error") =
      Outcome.panicked "Error loading devices" := rfl

/-- Claim C4 (amended): `save`, `delete`, `find_by_uuid` and
`find_by_refresh_token` report a store failure synchronously as a typed
outcome (`false`, resp. `none`) and never raise a fatal condition;
`find_by_user`, by contrast, raises a fatal condition (a panic with message
"Error loading devices") on a store error, and returns the matching rows only
when the store succeeds. -/
theorem store_ops_report_failure_typed (d : Device) (now : Int) (e : String)
    (uuid token user_uuid : String) (db : List Device) :
    (d.save now (Except.error e)).2 = false ∧
    Device.delete d (Except.error e) = false ∧
    Device.find_by_uuid uuid db (some e) = none ∧
    Device.find_by_refresh_token token db (some e) = none ∧
    Device.find_by_user user_uuid db (some e) =
      Outcome.panicked "Error loading devices" ∧
    Device.find_by_user user_uuid db none =
      Outcome.ok (db.filter (fun x => x.user_uuid == user_uuid)) :=
  ⟨rfl, rfl, rfl, rfl, rfl, rfl⟩

/-- Claim C5 counterexample: a failed save does change a field — `save` stamps
`updated_at` to "now" before attempting the write, so after the failure the
in-memory device no longer holds the `updated_at` the caller last set. -/
theorem save_failure_mutates_updated_at :
    ((Device.new "d1" "u1" "n" 0 0).save 5 (Except.error "io")).2 = false ∧
    ((Device.new "d1" "u1" "n" 0 0).save 5 (Except.error "io")).1.updated_at
      ≠ (Device.new "d1" "u1" "n" 0 0).updated_at := by
  decide

/-- Claim C5 (amended): when `save` returns failure, every field of the
in-memory device except `updated_at` still holds exactly the value the caller
last set; `updated_at` has been restamped to the current instant. -/
theorem save_failure_frame (d : Device) (now : Int)
    (exec : Except String Nat) (_hfail : (d.save now exec).2 = false) :
    (d.save now exec).1 = { d with updated_at := now } := rfl

/-- Concrete instance of claim C5 (amended). -/
theorem save_failure_frame_witness :
    ((Device.new "d1" "u1" "n" 0 0).save 5 (Except.error "io")).2 = false ∧
    ((Device.new "d1" "u1" "n" 0 0).save 5 (Except.error "io")).1
      = { Device.new "d1" "u1" "n" 0 0 with updated_at := 5 } :=
  ⟨by decide,
   save_failure_frame (Device.new "d1" "u1" "n" 0 0) 5 (Except.error "io")
     (by decide)⟩

/-- Claim C6: a store state containing a device whose refresh token is the
empty "never issued" marker lets `find_by_refresh_token ""` resolve to a real
device record — the lookup does not exclude the marker. -/
theorem find_by_refresh_token_empty_token_resolves (db : List Device)
    (d : Device) (hmem : d ∈ db) (hempty : d.refresh_token = "") :
    ∃ d', Device.find_by_refresh_token "" db none = some d' ∧
      d'.refresh_token = "" := by
  have hl : d ∈ db.filter (fun x => x.refresh_token == "") :=
    List.mem_filter.mpr ⟨hmem, by simp [hempty]⟩
  cases hfl : db.filter (fun x => x.refresh_token == "") with
  | nil =>
      rw [hfl] at hl
      exact absurd hl (List.not_mem_nil d)
  | cons a l =>
      refine ⟨a, ?_, ?_⟩
      · simp [Device.find_by_refresh_token, storeFirst, hfl, Except.toOption]
      · have ha : a ∈ db.filter (fun x => x.refresh_token == "") := by
          rw [hfl]
          exact List.mem_cons_self a l
        simpa using (List.mem_filter.mp ha).2

/-- Concrete instance of claim C6. -/
theorem find_by_refresh_token_empty_token_resolves_witness :
    ∃ d', Device.find_by_refresh_token ""
        [Device.new "d1" "u1" "n" 0 0] none = some d' ∧
      d'.refresh_token = "" :=
  find_by_refresh_token_empty_token_resolves
    [Device.new "d1" "u1" "n" 0 0] (Device.new "d1" "u1" "n" 0 0)
    (List.mem_singleton.mpr rfl) rfl

/-- Claim C9: `refresh_twofactor_remember` unconditionally stores and returns
the standard base64 encoding of the 180 random bytes, discarding any prior
value, so two calls whose random draws differ store different tokens; and
`delete_twofactor_remember` sets the field to `none` with no other effect. -/
theorem twofactor_remember_issue_invalidate (d : Device)
    (rand1 rand2 : List Byte) (h1 : rand1.length = 180)
    (h2 : rand2.length = 180) :
    (d.refresh_twofactor_remember rand1).2 = BASE64.encode rand1 ∧
    (d.refresh_twofactor_remember rand1).1
      = { d with twofactor_remember := some (BASE64.encode rand1) } ∧
    (rand1 ≠ rand2 →
      ((d.refresh_twofactor_remember rand1).1.refresh_twofactor_remember
          rand2).1.twofactor_remember
        ≠ (d.refresh_twofactor_remember rand1).1.twofactor_remember) ∧
    (d.refresh_twofactor_remember rand1).1.delete_twofactor_remember
      = { d with twofactor_remember := none } ∧
    d.delete_twofactor_remember = { d with twofactor_remember := none } := by
  refine ⟨rfl, rfl, ?_, rfl, rfl⟩
  intro hne hc
  have heq : BASE64.encode rand2 = BASE64.encode rand1 := by
    simpa [Device.refresh_twofactor_remember] using hc
  exact hne (BASE64.encode_inj rand2 rand1 (by omega) heq).symm

set_option maxRecDepth 4000 in
/-- Concrete instance of claim C9: two different draws store different
remember tokens. -/
theorem twofactor_remember_issue_invalidate_witness :
    (((Device.new "d1" "u1" "n" 0 0).refresh_twofactor_remember
        (List.replicate 180 (0 : Byte))).1.refresh_twofactor_remember
        ((1 : Byte) :: List.replicate 179 (0 : Byte))).1.twofactor_remember
      ≠ ((Device.new "d1" "u1" "n" 0 0).refresh_twofactor_remember
        (List.replicate 180 (0 : Byte))).1.twofactor_remember :=
  (twofactor_remember_issue_invalidate (Device.new "d1" "u1" "n" 0 0)
      (List.replicate 180 (0 : Byte))
      ((1 : Byte) :: List.replicate 179 (0 : Byte))
      (by decide) (by decide)).2.2.1 (by decide)

/-- Claim C10: along any evolution of a device by the mutating operations of
`device.rs` under a non-decreasing clock, `updated_at >= created_at` holds
(and `updated_at` never runs ahead of the current time): `new` sets both
timestamps to the same instant, `created_at` is never modified afterward, and
`refresh_tokens` and `save` only reassign `updated_at` to the current time. -/
theorem updated_at_ge_created_at_invariant {t : Int} {d : Device}
    (h : DeviceEvolution t d) :
    d.created_at ≤ d.updated_at ∧ d.updated_at ≤ t := by
  induction h with
  | created uuid user_uuid name type_ t0 => simp [Device.new]
  | refreshed u orgs rand hd hle ih =>
      obtain ⟨ih1, ih2⟩ := ih
      rw [refresh_tokens_full_device_eq]
      constructor
      · simp
        omega
      · simp
  | saved exec hd hle ih =>
      obtain ⟨ih1, ih2⟩ := ih
      constructor
      · simp [Device.save]
        omega
      · simp [Device.save]
  | remembered rand hd ih =>
      simpa [Device.refresh_twofactor_remember] using ih
  | forgot hd ih =>
      simpa [Device.delete_twofactor_remember] using ih

/-- Concrete instance of claim C10: create at time 1, save (even failing) at
time 3; `created_at <= updated_at` still holds. -/
theorem updated_at_ge_created_at_invariant_witness :
    ((Device.new "d1" "u1" "n" 0 1).save 3 (Except.error "io")).1.created_at
      ≤ ((Device.new "d1" "u1" "n" 0 1).save 3
          (Except.error "io")).1.updated_at ∧
    ((Device.new "d1" "u1" "n" 0 1).save 3 (Except.error "io")).1.updated_at
      ≤ 3 :=
  updated_at_ge_created_at_invariant
    (DeviceEvolution.saved (Except.error "io")
      (DeviceEvolution.created "d1" "u1" "n" 0 1) (by decide))
